import Mathlib

/-!
Verification of the page-render scheduler and viewport-fit logic of a
browser-based PDF viewer (`script.js`).  The source file contains two
revisions of the script; where the two revisions differ (the auto-fit
helper `pickBestScaleForPage` and the canvas preparation `prepareCanvas`)
both variants are embedded and compared.

Numbers manipulated by the script (scales, sizes, device pixel ratio) are
modelled as rationals with exact arithmetic; `toFixed(3)` is modelled as
round-half-up to three decimals (which is what it computes on the positive
values arising here), and `Math.floor` as the integer floor.
-/

namespace PdfViewer

/-- The `fitMode` state variable: `'auto' | 'width' | 'page' | 'custom'`. -/
inductive FitMode
  | auto
  | width
  | page
  | custom
deriving DecidableEq, Repr

/-- Model of `+(x).toFixed(3)`: round to three decimal places (half away from zero;
on the positive scales arising here this is round-half-up, i.e. `round`). -/
def round3 (q : ℚ) : ℚ := ((round (q * 1000) : ℤ) : ℚ) / 1000

/-- Model of `Math.max(0.25, Math.min(8, x))`: the scale clamp used by `zoomBy` and
`computeInitialScaleAndRender`. -/
def clampScale (q : ℚ) : ℚ := max (1/4) (min 8 q)

/-- The scale computation of `zoomBy(factor)` (script.js lines 92-98):
`newScale = Math.max(0.25, Math.min(8, +(scale * factor).toFixed(3)))`;
if `|newScale - scale| < 0.0001` the function returns early and the scale
is unchanged, otherwise the new scale is adopted. -/
def zoomBy (s f : ℚ) : ℚ :=
  let n := clampScale (round3 (s * f))
  if |n - s| < 1/10000 then s else n

/-- The function `pickBestScaleForPage` as in the second revision (lines 193-201):
`sx = availW / v1.width; sy = availH / v1.height;
return (sx < sy) ? sx : Math.min(sx, sy)`. -/
def pickBestScaleForPage (availW availH w h : ℚ) : ℚ :=
  let sx := availW / w
  let sy := availH / h
  if sx < sy then sx else min sx sy

/-- The function `pickBestScaleForPage` as in the first revision (lines 23-34), which
scales by height first: `scaleH = availH / v1.height;
scaledWidth = v1.width * scaleH;
return scaledWidth <= availW ? scaleH : availW / v1.width`. -/
def pickBestScaleForPageHeightFirst (availW availH w h : ℚ) : ℚ :=
  let scaleH := availH / h
  let scaledWidth := w * scaleH
  if scaledWidth ≤ availW then scaleH else availW / w

/-- The scale assignment performed by `computeInitialScaleAndRender`
(lines 101-115 / 259-275): dispatch on `fitMode` (`custom` leaves the
current scale), then `scale = Math.max(0.25, Math.min(8, +scale.toFixed(3)))`. -/
def computeInitialScale (mode : FitMode) (availW availH w h cur : ℚ) : ℚ :=
  let s :=
    match mode with
    | .auto => pickBestScaleForPage availW availH w h
    | .width => availW / w
    | .page => min (availW / w) (availH / h)
    | .custom => cur
  clampScale (round3 s)

/-- The sizes set on the canvas element by `prepareCanvas`: the backing
store (`canvas.width/height`, integers) and the CSS display size
(`canvas.style.width/height`). -/
structure CanvasConfig where
  backingW : ℤ
  backingH : ℤ
  styleW : ℚ
  styleH : ℚ
deriving DecidableEq, Repr

/-- The function `prepareCanvas` of the second revision (lines 204-212):
`dpr = Math.max(1, devicePixelRatio)`; style size is the viewport size;
backing size is `Math.floor(viewport.size * dpr)`. -/
def prepareCanvas (dprIn vw vh : ℚ) : CanvasConfig :=
  let dpr := max 1 dprIn
  { backingW := ⌊vw * dpr⌋
    backingH := ⌊vh * dpr⌋
    styleW := vw
    styleH := vh }

/-- The function `prepareCanvas` of the first revision (lines 37-55): the backing size is
the same, but the style size is the viewport size rescaled by
`scaleFactor = viewer.clientHeight / viewport.height`. -/
def prepareCanvasHeightFirst (viewerH dprIn vw vh : ℚ) : CanvasConfig :=
  let dpr := max 1 dprIn
  let scaleFactor := viewerH / vh
  { backingW := ⌊vw * dpr⌋
    backingH := ⌊vh * dpr⌋
    styleW := vw * scaleFactor
    styleH := vh * scaleFactor }

/-- The scheduler state.  Fields `rendering`, `pending`, `pageNum`, `scale`,
`fitMode`, `pdfDoc` (carrying `numPages` when loaded) and the error log
counter come from the script's module-level variables; `active` is a ghost
counter of outstanding asynchronous render tasks, `started` the ghost log of
pages passed to `renderPage`, `busyReqs` the ghost log of pages requested
while a render was in flight, and `requests` the ghost log of all
`queueRender` arguments. -/
structure ViewerState where
  rendering : Bool
  pending : Option ℕ
  pageNum : ℕ
  scale : ℚ
  fitMode : FitMode
  pdfDoc : Option ℕ
  errors : ℕ
  active : ℕ
  started : List ℕ
  busyReqs : List ℕ
  requests : List ℕ
deriving DecidableEq, Repr

/-- The module-level initial state: `pageNum = 1; scale = 1;
fitMode = 'auto'; rendering = false; pending = null; pdfDoc = null`. -/
def init : ViewerState :=
  { rendering := false
    pending := none
    pageNum := 1
    scale := 1
    fitMode := .auto
    pdfDoc := none
    errors := 0
    active := 0
    started := []
    busyReqs := []
    requests := [] }

/-- The synchronous prefix of `renderPage(n)` (lines 58-77): set
`rendering = true` and launch one asynchronous render task for page `n`
(ghost: `active` incremented, `n` appended to `started`).  The task's later
resolution is modelled by `onRenderComplete` / `onRenderError`. -/
def renderPage (s : ViewerState) (n : ℕ) : ViewerState :=
  { s with rendering := true, active := s.active + 1, started := s.started ++ [n] }

/-- The function `queueRender(n)` (lines 79-81): `if (rendering) pending = n;
else renderPage(n)`.  Ghost: every call is logged in `requests`, and a call
made while rendering is additionally logged in `busyReqs`. -/
def queueRender (s : ViewerState) (n : ℕ) : ViewerState :=
  if s.rendering then
    { s with pending := some n
             busyReqs := s.busyReqs ++ [n]
             requests := s.requests ++ [n] }
  else
    renderPage { s with requests := s.requests ++ [n] } n

/-- Successful resolution of the in-flight render task
(`renderTask.promise.then`, lines 65-68): `rendering = false`; if
`pending !== null` it is taken, cleared, and `renderPage` is called with it. -/
def onRenderComplete (s : ViewerState) : ViewerState :=
  let s1 := { s with rendering := false, active := s.active - 1 }
  match s1.pending with
  | some p => renderPage { s1 with pending := none } p
  | none => s1

/-- Failed resolution of either asynchronous stage of `renderPage`
(the `getPage` catch at lines 73-76 or the render catch at lines 69-72):
the error is logged (`console.error`) and `rendering = false`; nothing else
is touched — in particular `pending` is not drained and no render starts. -/
def onRenderError (s : ViewerState) : ViewerState :=
  { s with rendering := false, active := s.active - 1, errors := s.errors + 1 }

/-- The function `prevPage()` (line 88): `if (pageNum <= 1) return;
pageNum--; queueRender(pageNum);`. -/
def prevPage (s : ViewerState) : ViewerState :=
  if s.pageNum ≤ 1 then s
  else queueRender { s with pageNum := s.pageNum - 1 } (s.pageNum - 1)

/-- The function `nextPage()` (line 89): `if (!pdfDoc) return;
if (pageNum >= pdfDoc.numPages) return; pageNum++; queueRender(pageNum);`. -/
def nextPage (s : ViewerState) : ViewerState :=
  match s.pdfDoc with
  | none => s
  | some numPages =>
      if numPages ≤ s.pageNum then s
      else queueRender { s with pageNum := s.pageNum + 1 } (s.pageNum + 1)

/-- Reachable scheduler states: the initial state, closed under the events
`queueRender n`, successful completion of an outstanding render task, and
failed resolution of an outstanding render task (a completion or failure
event presupposes an outstanding task, `0 < active`). -/
inductive Reach : ViewerState → Prop
  | init : Reach init
  | queue {s : ViewerState} (n : ℕ) : Reach s → Reach (queueRender s n)
  | ok {s : ViewerState} : Reach s → 0 < s.active → Reach (onRenderComplete s)
  | err {s : ViewerState} : Reach s → 0 < s.active → Reach (onRenderError s)

/-! ### Numeric helper lemmas -/

theorem abs_round3_sub (q : ℚ) : |round3 q - q| ≤ 1/2000 := by
  have h : |q * 1000 - ((round (q * 1000) : ℤ) : ℚ)| ≤ 1/2 := abs_sub_round (q * 1000)
  have e : round3 q - q = -((q * 1000 - ((round (q * 1000) : ℤ) : ℚ)) / 1000) := by
    unfold round3; ring
  rw [e, abs_neg, abs_div]
  have h1000 : |(1000 : ℚ)| = 1000 := by norm_num
  rw [h1000]
  linarith

theorem round3_mono {x y : ℚ} (h : x ≤ y) : round3 x ≤ round3 y := by
  unfold round3
  have hr : round (x * 1000) ≤ round (y * 1000) := by
    rw [round_eq, round_eq]
    exact Int.floor_le_floor (by linarith)
  have hc : ((round (x * 1000) : ℤ) : ℚ) ≤ ((round (y * 1000) : ℤ) : ℚ) :=
    Int.cast_le.mpr hr
  linarith

theorem clampScale_mem (q : ℚ) : 1/4 ≤ clampScale q ∧ clampScale q ≤ 8 := by
  unfold clampScale
  exact ⟨le_max_left _ _, max_le (by norm_num) (min_le_left _ _)⟩

theorem clampScale_eq_self {q : ℚ} (h1 : 1/4 ≤ q) (h2 : q ≤ 8) : clampScale q = q := by
  unfold clampScale
  rw [min_eq_right h2, max_eq_right h1]

theorem abs_clampScale_sub {s : ℚ} (h1 : 1/4 ≤ s) (h2 : s ≤ 8) (q : ℚ) :
    |clampScale q - s| ≤ |q - s| := by
  unfold clampScale
  rcases le_total 8 q with h8 | h8
  · rw [min_eq_left h8, max_eq_right (by norm_num : (1/4 : ℚ) ≤ 8)]
    rw [abs_of_nonneg (by linarith), abs_of_nonneg (by linarith)]
    linarith
  · rw [min_eq_right h8]
    rcases le_total q (1/4) with h4 | h4
    · rw [max_eq_left h4]
      rw [abs_of_nonpos (by linarith), abs_of_nonpos (by linarith)]
      linarith
    · rw [max_eq_right h4]

theorem zoomBy_eq (s f : ℚ) :
    zoomBy s f =
      if |clampScale (round3 (s * f)) - s| < 1/10000 then s
      else clampScale (round3 (s * f)) := rfl

/-! ### C4: the auto fit-mode heuristic and its worked examples -/

/-- C4: in fit mode `auto` the computed scale is `sx` when `sx < sy` and
`min sx sy` otherwise (with `sx = availW/w`, `sy = availH/h`); on viewport
800×600 a 600×800 page yields scale 3/4, and a 1200×400 page yields
`sx = 2/3` (which the subsequent round-and-clamp step turns into 0.667). -/
theorem auto_fit_heuristic :
    (∀ aw ah w h : ℚ, pickBestScaleForPage aw ah w h =
        if aw/w < ah/h then aw/w else min (aw/w) (ah/h)) ∧
    pickBestScaleForPage 800 600 600 800 = 3/4 ∧
    pickBestScaleForPage 800 600 1200 400 = 2/3 ∧
    computeInitialScale .auto 800 600 600 800 1 = 3/4 ∧
    computeInitialScale .auto 800 600 1200 400 1 = 667/1000 := by
  refine ⟨fun aw ah w h => rfl, ?_, ?_, ?_, ?_⟩
  · norm_num [pickBestScaleForPage]
  · norm_num [pickBestScaleForPage]
  · norm_num [computeInitialScale, pickBestScaleForPage, clampScale, round3, round_eq]
  · norm_num [computeInitialScale, pickBestScaleForPage, clampScale, round3, round_eq]

/-! ### C6: the computed fit scale is always inside the clamp bounds -/

/-- C6: for every fit mode and all page/viewport dimensions, the scale
computed by `computeInitialScaleAndRender` (round to 3 decimals, then clamp)
lies in `[0.25, 8]`. -/
theorem computeInitialScale_bounds (mode : FitMode) (aw ah w h cur : ℚ) :
    1/4 ≤ computeInitialScale mode aw ah w h cur ∧
    computeInitialScale mode aw ah w h cur ≤ 8 :=
  clampScale_mem _

/-! ### C9: the two `pickBestScaleForPage` variants agree with `min sx sy` -/

/-- C9: on positive dimensions the height-first variant (lines 23-34) and
the `sx`/`sy` comparison variant (lines 193-201) both return
`min (availW/w) (availH/h)`; hence they are extensionally equal and `auto`
mode computes exactly the same scale as `page` mode. -/
theorem pickBest_variants_min (aw ah w h : ℚ) (haw : 0 < aw) (hah : 0 < ah)
    (hw : 0 < w) (hh : 0 < h) (cur : ℚ) :
    pickBestScaleForPageHeightFirst aw ah w h = min (aw/w) (ah/h) ∧
    pickBestScaleForPage aw ah w h = min (aw/w) (ah/h) ∧
    pickBestScaleForPageHeightFirst aw ah w h = pickBestScaleForPage aw ah w h ∧
    computeInitialScale .auto aw ah w h cur = computeInitialScale .page aw ah w h cur := by
  have h2 : pickBestScaleForPage aw ah w h = min (aw/w) (ah/h) := by
    show (if aw/w < ah/h then aw/w else min (aw/w) (ah/h)) = min (aw/w) (ah/h)
    split_ifs with hlt
    · exact (min_eq_left hlt.le).symm
    · rfl
  have h1 : pickBestScaleForPageHeightFirst aw ah w h = min (aw/w) (ah/h) := by
    show (if w * (ah/h) ≤ aw then ah/h else aw/w) = min (aw/w) (ah/h)
    split_ifs with hle
    · have hyx : ah/h ≤ aw/w := by
        rw [le_div_iff₀ hw]
        linarith [hle]
      exact (min_eq_right hyx).symm
    · push_neg at hle
      have hxy : aw/w < ah/h := by
        rw [div_lt_div_iff₀ hw hh]
        have h3 : aw * h < w * (ah/h) * h := mul_lt_mul_of_pos_right hle hh
        have hid : w * (ah/h) * h = ah * w := by
          field_simp
          ring
        linarith
      exact (min_eq_left hxy.le).symm
  refine ⟨h1, h2, h1.trans h2.symm, ?_⟩
  unfold computeInitialScale
  simp only [h2]

/-- Witness for C9 at viewport 800×600 and page 600×800: both variants
evaluate to 3/4. -/
theorem pickBest_variants_min_witness :
    pickBestScaleForPageHeightFirst 800 600 600 800 = pickBestScaleForPage 800 600 600 800 ∧
    pickBestScaleForPageHeightFirst 800 600 600 800 = 3/4 := by
  have h := pickBest_variants_min 800 600 600 800 (by norm_num) (by norm_num)
    (by norm_num) (by norm_num) 1
  refine ⟨h.2.2.1, ?_⟩
  rw [h.1]
  norm_num

/-! ### C5: the zoom round-trip -/

/-- C5 counterexample: starting at scale 8 (inside `[0.25, 8]`) with the
positive factor 2, `zoomBy 2` is clamped back to 8 (hence a no-op by the
epsilon test) while `zoomBy (1/2)` then halves the scale to 4, which is 4
away from the original — far beyond the rounding tolerance of
`0.0005 + 0.0005 + 0.0001 = 0.0011`. -/
theorem zoomBy_roundtrip_cex :
    zoomBy (zoomBy 8 2) (1/2 : ℚ) = 4 ∧
    ¬ |zoomBy (zoomBy 8 2) (1/2 : ℚ) - 8| ≤ 11/10000 := by
  have h : zoomBy (zoomBy 8 2) (1/2 : ℚ) = 4 := by
    norm_num [zoomBy, clampScale, round3, round_eq]
  refine ⟨h, ?_⟩
  rw [h]
  norm_num

/-- C5 (amended): for a starting scale in `[0.25, 8]` and a factor `f ≥ 1`
whose first zoom does not hit the upper clamp (`round3 (s*f) ≤ 8`),
`zoomBy f` followed by `zoomBy (1/f)` returns the scale to within
`0.0011` (two half-ulps of the 3-decimal rounding plus the `0.0001`
epsilon) of the original value. -/
theorem zoomBy_roundtrip (s f : ℚ) (hs1 : 1/4 ≤ s) (hs2 : s ≤ 8) (hf : 1 ≤ f)
    (hcl : round3 (s * f) ≤ 8) :
    |zoomBy (zoomBy s f) (1/f) - s| ≤ 11/10000 := by
  have hf0 : (0:ℚ) < f := lt_of_lt_of_le one_pos hf
  have hfne : f ≠ 0 := ne_of_gt hf0
  have hsf_lb : (1/4 : ℚ) ≤ s * f := by nlinarith
  have hlow : (1/4 : ℚ) ≤ round3 (s * f) := by
    have ha : round3 (1/4 : ℚ) ≤ round3 (s * f) := round3_mono hsf_lb
    have hb : round3 (1/4 : ℚ) = 1/4 := by norm_num [round3, round_eq]
    linarith
  have hclamp1 : clampScale (round3 (s * f)) = round3 (s * f) :=
    clampScale_eq_self hlow hcl
  have he1 : |round3 (s * f) - s * f| ≤ 1/2000 := abs_round3_sub (s * f)
  rw [zoomBy_eq s f, hclamp1]
  by_cases hA : |round3 (s * f) - s| < 1/10000
  · rw [if_pos hA]
    have hsfs : |s * f - s| ≤ 6/10000 := by
      have htri := abs_sub_le (s * f) (round3 (s * f)) s
      have hsym : |s * f - round3 (s * f)| = |round3 (s * f) - s * f| :=
        abs_sub_comm _ _
      linarith
    have ht : |s * (1/f) - s| ≤ 6/10000 := by
      have hrw : s * (1/f) - s = -((s * f - s) / f) := by
        field_simp
        ring
      rw [hrw, abs_neg, abs_div, abs_of_pos hf0]
      have hd : |s * f - s| / f ≤ |s * f - s| := div_le_self (abs_nonneg _) hf
      linarith
    have hm2 : |round3 (s * (1/f)) - s| ≤ 11/10000 := by
      have htri := abs_sub_le (round3 (s * (1/f))) (s * (1/f)) s
      have hr := abs_round3_sub (s * (1/f))
      linarith
    have hc2 : |clampScale (round3 (s * (1/f))) - s| ≤ 11/10000 :=
      le_trans (abs_clampScale_sub hs1 hs2 _) hm2
    rw [zoomBy_eq]
    by_cases hB : |clampScale (round3 (s * (1/f))) - s| < 1/10000
    · rw [if_pos hB]
      simp only [sub_self, abs_zero]
      norm_num
    · rw [if_neg hB]
      exact hc2
  · rw [if_neg hA]
    have ht : |round3 (s * f) * (1/f) - s| ≤ 1/2000 := by
      have hrw : round3 (s * f) * (1/f) - s = (round3 (s * f) - s * f) / f := by
        field_simp
        ring
      rw [hrw, abs_div, abs_of_pos hf0]
      have hd : |round3 (s * f) - s * f| / f ≤ |round3 (s * f) - s * f| :=
        div_le_self (abs_nonneg _) hf
      linarith
    have hm2 : |round3 (round3 (s * f) * (1/f)) - s| ≤ 1/1000 := by
      have htri := abs_sub_le (round3 (round3 (s * f) * (1/f))) (round3 (s * f) * (1/f)) s
      have hr := abs_round3_sub (round3 (s * f) * (1/f))
      linarith
    have hc2 : |clampScale (round3 (round3 (s * f) * (1/f))) - s| ≤ 1/1000 :=
      le_trans (abs_clampScale_sub hs1 hs2 _) hm2
    rw [zoomBy_eq]
    by_cases hB : |clampScale (round3 (round3 (s * f) * (1/f))) - round3 (s * f)| < 1/10000
    · rw [if_pos hB]
      have htri := abs_sub_le (round3 (s * f)) (clampScale (round3 (round3 (s * f) * (1/f)))) s
      have hsym : |round3 (s * f) - clampScale (round3 (round3 (s * f) * (1/f)))| =
          |clampScale (round3 (round3 (s * f) * (1/f))) - round3 (s * f)| :=
        abs_sub_comm _ _
      linarith
    · rw [if_neg hB]
      linarith

/-- Witness for the amended C5 at scale 1 and factor 2: the round trip
returns exactly to 1, well within the tolerance. -/
theorem zoomBy_roundtrip_witness :
    |zoomBy (zoomBy 1 2) (1/2 : ℚ) - 1| ≤ 11/10000 :=
  zoomBy_roundtrip 1 2 (by norm_num) (by norm_num) (by norm_num)
    (by norm_num [round3, round_eq])

/-! ### C1: trailing-edge coalescing of render requests -/

theorem foldl_queueRender_busy (ns : List ℕ) : ∀ s : ViewerState, s.rendering = true →
    (List.foldl queueRender s ns).rendering = true ∧
    (List.foldl queueRender s ns).started = s.started ∧
    (List.foldl queueRender s ns).active = s.active := by
  induction ns with
  | nil => exact fun s hs => ⟨hs, rfl, rfl⟩
  | cons a t ih =>
      intro s hs
      have hq : queueRender s a =
          { s with pending := some a
                   busyReqs := s.busyReqs ++ [a]
                   requests := s.requests ++ [a] } := by
        simp [queueRender, hs]
      rw [List.foldl_cons, hq]
      exact ih _ hs

/-- C1: if a render is in flight and a burst of `queueRender` calls for
pages `ms ++ [a]` arrives before it completes, then no render starts during
the burst, `pending` ends as the final page `a`, and the completion handler
starts exactly one further render, of `a` — the intermediate pages of the
burst are never passed to `renderPage`. -/
theorem queueRender_coalescing (s : ViewerState) (hs : s.rendering = true)
    (ms : List ℕ) (a : ℕ) :
    (List.foldl queueRender s (ms ++ [a])).started = s.started ∧
    (List.foldl queueRender s (ms ++ [a])).pending = some a ∧
    (onRenderComplete (List.foldl queueRender s (ms ++ [a]))).started = s.started ++ [a] ∧
    (onRenderComplete (List.foldl queueRender s (ms ++ [a]))).pending = none ∧
    (onRenderComplete (List.foldl queueRender s (ms ++ [a]))).rendering = true := by
  obtain ⟨hr, hst, -⟩ := foldl_queueRender_busy ms s hs
  rw [List.foldl_append]
  have hq : queueRender (List.foldl queueRender s ms) a =
      { List.foldl queueRender s ms with
          pending := some a
          busyReqs := (List.foldl queueRender s ms).busyReqs ++ [a]
          requests := (List.foldl queueRender s ms).requests ++ [a] } := by
    simp [queueRender, hr]
  rw [List.foldl_cons, List.foldl_nil, hq]
  refine ⟨hst, rfl, ?_, ?_, ?_⟩ <;>
    simp [onRenderComplete, renderPage, hst]

/-- Witness for C1: with a render of page 1 in flight, the burst `[2, 3]`
starts nothing, leaves `pending = 3`, and completion renders exactly page 3. -/
theorem queueRender_coalescing_witness :
    (List.foldl queueRender (renderPage init 1) [2, 3]).started = [1] ∧
    (List.foldl queueRender (renderPage init 1) [2, 3]).pending = some 3 ∧
    (onRenderComplete (List.foldl queueRender (renderPage init 1) [2, 3])).started = [1, 3] ∧
    (onRenderComplete (List.foldl queueRender (renderPage init 1) [2, 3])).pending = none := by
  have h := queueRender_coalescing (renderPage init 1) rfl [2] 3
  exact ⟨h.1, h.2.1, h.2.2.1, h.2.2.2.1⟩

/-! ### C2: the scheduler invariant -/

theorem reach_inv {s : ViewerState} (h : Reach s) :
    s.active = (if s.rendering then 1 else 0) ∧
    (∀ p, s.pending = some p → s.busyReqs.getLast? = some p) := by
  induction h with
  | init => exact ⟨rfl, by intro p hp; cases hp⟩
  | @queue s n _ ih =>
      obtain ⟨ha, hp⟩ := ih
      by_cases hr : s.rendering
      · have hq : queueRender s n =
            { s with pending := some n
                     busyReqs := s.busyReqs ++ [n]
                     requests := s.requests ++ [n] } := by
          simp [queueRender, hr]
        rw [hq]
        refine ⟨ha, ?_⟩
        intro p hpeq
        cases hpeq
        simp
      · have hq : queueRender s n =
            renderPage { s with requests := s.requests ++ [n] } n := by
          simp [queueRender, hr]
        rw [hq]
        refine ⟨?_, ?_⟩
        · simp only [renderPage]
          simp only [hr, if_false] at ha
          simp [ha]
        · intro p hpeq
          exact hp p hpeq
  | @ok s _ hact ih =>
      obtain ⟨ha, hp⟩ := ih
      have hr : s.rendering = true := by
        by_contra hc
        simp only [Bool.not_eq_true] at hc
        rw [hc] at ha
        simp only [Bool.false_eq_true, if_false] at ha
        omega
      have ha1 : s.active = 1 := by
        rw [ha, hr]
        simp
      cases hpc : s.pending with
      | none =>
          have heq : onRenderComplete s = { s with rendering := false, active := s.active - 1 } := by
            simp [onRenderComplete, hpc]
          rw [heq]
          refine ⟨by simp [ha1], ?_⟩
          intro p hpeq
          rw [show ({ s with rendering := false, active := s.active - 1 } : ViewerState).pending
                = s.pending from rfl, hpc] at hpeq
          cases hpeq
      | some q =>
          have heq : onRenderComplete s =
              renderPage { s with rendering := false, active := s.active - 1, pending := none } q := by
            simp [onRenderComplete, hpc]
          rw [heq]
          refine ⟨by simp [renderPage, ha1], ?_⟩
          intro p hpeq
          cases hpeq
  | @err s _ hact ih =>
      obtain ⟨ha, hp⟩ := ih
      have hr : s.rendering = true := by
        by_contra hc
        simp only [Bool.not_eq_true] at hc
        rw [hc] at ha
        simp only [Bool.false_eq_true, if_false] at ha
        omega
      have ha1 : s.active = 1 := by
        rw [ha, hr]
        simp
      refine ⟨by simp [onRenderError, ha1], ?_⟩
      intro p hpeq
      exact hp p hpeq

/-- C2: in every reachable scheduler state at most one render task is
outstanding, and whenever `pending` is non-null it equals the most recent
page requested while a render was in flight (the last entry of the ghost
log `busyReqs`); `pending` being a single optional cell, requests are
coalesced last-write-wins, never queued. -/
theorem scheduler_invariant (s : ViewerState) (h : Reach s) :
    s.active ≤ 1 ∧ (∀ p, s.pending = some p → s.busyReqs.getLast? = some p) := by
  obtain ⟨ha, hp⟩ := reach_inv h
  refine ⟨?_, hp⟩
  rw [ha]
  split <;> omega

/-- Witness for C2 at the reachable state obtained by requesting page 1
(render starts) and then page 2 (recorded as pending while busy). -/
theorem scheduler_invariant_witness :
    (queueRender (queueRender init 1) 2).active ≤ 1 ∧
    (queueRender (queueRender init 1) 2).busyReqs.getLast? = some 2 := by
  have h := scheduler_invariant (queueRender (queueRender init 1) 2)
    (Reach.queue 2 (Reach.queue 1 Reach.init))
  exact ⟨h.1, h.2 2 (by decide)⟩

/-! ### C3: failure semantics of a render error -/

/-- C3: when the asynchronous page-fetch or rasterization fails, the
handler clears the in-flight flag, logs one error (the script's only error
surface for render failures, per `console.error`), starts no retry, and
leaves `pageNum`, `scale` and `fitMode` untouched; a subsequent
`queueRender` is served immediately, so navigation and zoom keep working. -/
theorem renderError_recovery (s : ViewerState) :
    (onRenderError s).rendering = false ∧
    (onRenderError s).errors = s.errors + 1 ∧
    (onRenderError s).started = s.started ∧
    (onRenderError s).pageNum = s.pageNum ∧
    (onRenderError s).scale = s.scale ∧
    (onRenderError s).fitMode = s.fitMode ∧
    (∀ n, (queueRender (onRenderError s) n).started = s.started ++ [n]) := by
  refine ⟨rfl, rfl, rfl, rfl, rfl, rfl, fun n => ?_⟩
  simp [onRenderError, queueRender, renderPage]

/-! ### C7: navigation stays within `[1, pageCount]` -/

theorem queueRender_pageNum (s : ViewerState) (n : ℕ) :
    (queueRender s n).pageNum = s.pageNum := by
  by_cases hr : s.rendering <;> simp [queueRender, renderPage, hr]

theorem queueRender_requests (s : ViewerState) (n : ℕ) :
    (queueRender s n).requests = s.requests ++ [n] := by
  by_cases hr : s.rendering <;> simp [queueRender, renderPage, hr]

/-- C7: with a loaded document of `np` pages and `1 ≤ pageNum ≤ np`,
`prevPage` at page 1 and `nextPage` at page `np` are complete no-ops
(state unchanged, no render requested), and otherwise navigation moves
`pageNum` by exactly one, stays inside `[1, np]`, and requests a render of
the new page. -/
theorem navigate_clamped (s : ViewerState) (np : ℕ) (hdoc : s.pdfDoc = some np)
    (h1 : 1 ≤ s.pageNum) (h2 : s.pageNum ≤ np) :
    (s.pageNum = 1 → prevPage s = s) ∧
    (s.pageNum = np → nextPage s = s) ∧
    (1 < s.pageNum →
      (prevPage s).pageNum = s.pageNum - 1 ∧
      1 ≤ (prevPage s).pageNum ∧ (prevPage s).pageNum ≤ np ∧
      (prevPage s).requests = s.requests ++ [s.pageNum - 1]) ∧
    (s.pageNum < np →
      (nextPage s).pageNum = s.pageNum + 1 ∧
      1 ≤ (nextPage s).pageNum ∧ (nextPage s).pageNum ≤ np ∧
      (nextPage s).requests = s.requests ++ [s.pageNum + 1]) := by
  refine ⟨?_, ?_, ?_, ?_⟩
  · intro he
    simp [prevPage, he]
  · intro he
    simp [nextPage, hdoc, he]
  · intro hlt
    have hne : ¬ s.pageNum ≤ 1 := by omega
    have hpv : prevPage s =
        queueRender { s with pageNum := s.pageNum - 1 } (s.pageNum - 1) := by
      simp [prevPage, hne]
    rw [hpv, queueRender_pageNum, queueRender_requests]
    refine ⟨rfl, ?_, ?_, rfl⟩
    · show 1 ≤ s.pageNum - 1
      omega
    · show s.pageNum - 1 ≤ np
      omega
  · intro hlt
    have hne : ¬ np ≤ s.pageNum := by omega
    have hnx : nextPage s =
        queueRender { s with pageNum := s.pageNum + 1 } (s.pageNum + 1) := by
      simp [nextPage, hdoc, hne]
    rw [hnx, queueRender_pageNum, queueRender_requests]
    refine ⟨rfl, ?_, ?_, rfl⟩
    · show 1 ≤ s.pageNum + 1
      omega
    · show s.pageNum + 1 ≤ np
      omega

/-- Witness for C7 for a 3-page document: `prevPage` at page 1 is the
identity, and `nextPage` moves page 1 to page 2. -/
theorem navigate_clamped_witness :
    prevPage { init with pdfDoc := some 3 } = { init with pdfDoc := some 3 } ∧
    (nextPage { init with pdfDoc := some 3 }).pageNum = 2 := by
  have h := navigate_clamped { init with pdfDoc := some 3 } 3 rfl (by decide) (by decide)
  exact ⟨h.1 rfl, (h.2.2.2 (by decide)).1⟩

/-! ### C8: canvas backing and display sizes -/

/-- C8 counterexample: for a page of natural size 100×200 at scale 1, a
viewer of height 100 and `devicePixelRatio` 1, the height-first
`prepareCanvas` (lines 37-55) sets the display width to 50, not to the
scaled viewport width 100 that the claim requires. -/
theorem prepareCanvas_cex :
    (prepareCanvasHeightFirst 100 1 (100 * 1) (200 * 1)).styleW = 50 ∧
    (100 : ℚ) * 1 ≠ 50 := by
  constructor
  · norm_num [prepareCanvasHeightFirst]
  · norm_num

/-- C8 (amended): in both `prepareCanvas` variants the backing size is
`⌊naturalSize × scale × dpr⌋` per dimension (`dpr = max 1 devicePixelRatio`);
the display size is `naturalSize × scale` in the dpr-only variant
(lines 204-212), while the height-first variant (lines 37-55) additionally
rescales the display size by `viewerHeight / (naturalHeight × scale)` to fit
the viewer height. -/
theorem prepareCanvas_sizes (dprIn natW natH sc viewerH : ℚ) :
    (prepareCanvas dprIn (natW * sc) (natH * sc)).backingW = ⌊natW * sc * max 1 dprIn⌋ ∧
    (prepareCanvas dprIn (natW * sc) (natH * sc)).backingH = ⌊natH * sc * max 1 dprIn⌋ ∧
    (prepareCanvas dprIn (natW * sc) (natH * sc)).styleW = natW * sc ∧
    (prepareCanvas dprIn (natW * sc) (natH * sc)).styleH = natH * sc ∧
    (prepareCanvasHeightFirst viewerH dprIn (natW * sc) (natH * sc)).backingW
      = ⌊natW * sc * max 1 dprIn⌋ ∧
    (prepareCanvasHeightFirst viewerH dprIn (natW * sc) (natH * sc)).backingH
      = ⌊natH * sc * max 1 dprIn⌋ ∧
    (prepareCanvasHeightFirst viewerH dprIn (natW * sc) (natH * sc)).styleW
      = (natW * sc) * (viewerH / (natH * sc)) ∧
    (prepareCanvasHeightFirst viewerH dprIn (natW * sc) (natH * sc)).styleH
      = (natH * sc) * (viewerH / (natH * sc)) :=
  ⟨rfl, rfl, rfl, rfl, rfl, rfl, rfl, rfl⟩

/-! ### C10: a render failure does not drain (nor drop) `pending` -/

/-- C10 counterexample: run `queueRender 1` (render starts), `queueRender 2`
(pending), render failure, `queueRender 3` (render starts), successful
completion — the completion handler drains the stale `pending` and page 2
IS eventually rendered, refuting "the pending request is dropped and never
rendered". -/
theorem renderError_pending_cex :
    2 ∈ (onRenderComplete (queueRender (onRenderError
          (queueRender (queueRender init 1) 2)) 3)).started := by
  decide

/-- C10 (amended): if a render fails while `pending = some p`, the failure
path clears only the in-flight flag and starts no render, so the view does
not converge to `p` until a later event issues a new render request; but
`pending` is not dropped — it survives the failure, and once a later
request triggers a render that completes successfully, the completion
handler drains it and page `p` is rendered after all. -/
theorem renderError_keeps_pending (s : ViewerState) (p : ℕ)
    (hp : s.pending = some p) (hr : s.rendering = true) :
    (onRenderError s).pending = some p ∧
    (onRenderError s).started = s.started ∧
    (onRenderError s).rendering = false ∧
    (∀ n, (onRenderComplete (queueRender (onRenderError s) n)).started
      = s.started ++ [n, p]) := by
  refine ⟨hp, rfl, rfl, fun n => ?_⟩
  simp [onRenderError, queueRender, renderPage, onRenderComplete, hp]

/-- Witness for the amended C10: render of page 1 in flight, page 2
pending; after the failure `pending` still holds 2, and a later request for
page 3 followed by a successful completion renders `[3, 2]` after page 1. -/
theorem renderError_keeps_pending_witness :
    (onRenderError (queueRender (renderPage init 1) 2)).pending = some 2 ∧
    (onRenderComplete (queueRender (onRenderError
        (queueRender (renderPage init 1) 2)) 3)).started = [1, 3, 2] := by
  have h := renderError_keeps_pending (queueRender (renderPage init 1) 2) 2 (by decide) (by decide)
  refine ⟨h.1, ?_⟩
  have h4 := h.2.2.2 3
  simpa [queueRender, renderPage, init] using h4

end PdfViewer
